import Mathlib

/-!
Verification development for the TalknShop orchestrator buyer-flow engine
(`apps/orchestrator-service`).  The Python sources are shallowly embedded:
the LangGraph node functions of `app/graph/nodes.py` become pure Lean
functions on an explicit `WorkflowState` record, the routing functions of
`app/graph/graph.py` become a `route` table, and external collaborators
(Bedrock LLM calls, media service, catalog service, DynamoDB) are passed
in as explicit outcome parameters (`Except PyErr _`), since a node either
receives their answer or lands in its `except` fallback.  Python floats
are modelled as exact rationals, `datetime.utcnow()` as a rational clock
parameter, and dictionaries as association lists.
-/

namespace TalknShop

/-- Workflow execution stages, from `WorkflowStage` in `app/models/enums.py`. -/
inductive WorkflowStage where
  | initial
  | media_processing
  | requirement_building
  | clarification
  | searching
  | ranking
  | completed
  | failed
  | cancelled
  deriving DecidableEq, Repr

/-- Product condition values, from `ProductCondition` in `app/models/enums.py`. -/
inductive ProductCondition where
  | new
  | like_new
  | good
  | fair
  | refurbished
  deriving DecidableEq, Repr

/-- Price filter of a requirement, from `PriceFilter` in `app/models/schemas.py`
(the `currency` field is omitted; no node reads it). -/
structure PriceFilter where
  min : Option ℚ := none
  max : Option ℚ := none
  deriving DecidableEq, Repr

/-- Structured product-search requirement, from `RequirementSpec` in
`app/models/schemas.py`.  The `attributes` and `filters` dictionaries are
association lists; only key presence is ever inspected by the nodes.
`marketplaces` is omitted (never read by the embedded nodes). -/
structure RequirementSpec where
  product_type : String
  attributes : List (String × String) := []
  filters : List (String × String) := []
  price : Option PriceFilter := none
  brand_preferences : List String := []
  rating_min : Option ℚ := none
  condition : Option ProductCondition := none
  deriving DecidableEq, Repr

/-- Product search result, from `ProductResult` in `app/models/schemas.py`,
restricted to the fields `rank_and_compose` reads.  `price` is kept
optional because `rank_score` in `app/graph/nodes.py` explicitly branches
on `product.price is None`. -/
structure ProductResult where
  product_id : String
  title : String := ""
  price : Option ℚ := none
  rating : Option ℚ := none
  deriving DecidableEq, Repr

/-- Reference to an uploaded media file (`MediaReference` in
`app/models/schemas.py`; nodes read only `category` and `s3_key`). -/
structure MediaRef where
  category : String
  s3_key : String := ""
  deriving DecidableEq, Repr

/-- Python exception reaching a node's `except` handler.  `nameError` is the
`NameError` raised by evaluating the undefined names `has_audio` /
`has_image` in `need_media_ops`; `err` carries `str(e)` of any other
exception (collaborator failure, JSON parse failure, DB failure). -/
inductive PyErr where
  | nameError
  | err (msg : String)
  deriving DecidableEq, Repr

/-- Message stored into `state["error"]` by handlers doing `str(e)`. -/
def PyErr.message : PyErr → String
  | .nameError => "name has_audio or has_image is not defined"
  | .err m => m

/-- The LangGraph `WorkflowState` bag (`app/graph/state.py`), embedded as an
explicit record.  The Python `TypedDict` is `total=False` and the nodes read
absent keys through `state.get(key, default)`; those defaults are the field
defaults here.  Timestamps are rationals. -/
structure WorkflowState where
  session_id : String := ""
  user_id : String := ""
  user_message : String := ""
  media_refs : List MediaRef := []
  need_stt : Bool := false
  need_vision : Bool := false
  audio_transcript : Option String := none
  image_attributes : Option (List (String × String)) := none
  requirement_spec : Option RequirementSpec := none
  requirement_history : List RequirementSpec := []
  needs_clarification : Bool := false
  clarification_reason : String := ""
  clarifying_question : Option String := none
  clarifying_suggestions : List String := []
  clarifying_context : Option String := none
  clarification_count : Nat := 0
  raw_search_results : List ProductResult := []
  ranked_results : List ProductResult := []
  final_response : Option String := none
  error : Option String := none
  stage : WorkflowStage := .initial
  node_trace : List String := []
  completed_at : Option ℚ := none
  deriving DecidableEq, Repr

/-! ### Ranking (`rank_and_compose`, nodes.py lines 583-641) -/

/-- The composite ranking score `rank_score` from `rank_and_compose`:
`price_val = product.price if product.price is not None else 999999`,
`rating_val = product.rating if product.rating is not None else 0`,
`score = (1/(1+price_val)) * 0.4 + (rating_val/5) * 0.6`, over ℚ. -/
def rank_score (p : ProductResult) : ℚ :=
  let price_val : ℚ := p.price.getD 999999
  let rating_val : ℚ := p.rating.getD 0
  (1 / (1 + price_val)) * (4 / 10) + (rating_val / 5) * (6 / 10)

/-- The ordering used by Python's `sorted(products, key=f, reverse=True)`:
`a` may stay before `b` exactly when `f b ≤ f a`.  A stable sort under this
relation is descending by `f` with ties kept in original order. -/
def scoreRel (f : α → ℚ) : α → α → Prop := fun a b => f b ≤ f a

instance (f : α → ℚ) : DecidableRel (scoreRel f) := fun a b =>
  inferInstanceAs (Decidable (f b ≤ f a))

instance (f : α → ℚ) : IsTotal α (scoreRel f) :=
  ⟨fun a b => le_total (f b) (f a)⟩

instance (f : α → ℚ) : IsTrans α (scoreRel f) :=
  ⟨fun _ _ _ h1 h2 => le_trans h2 h1⟩

/-- Friendly no-match message from `rank_and_compose`. -/
def no_match_response : String :=
  "I couldn\x27t find any products matching your requirements. Would you like to adjust your criteria?"

/-- Composed response text from `rank_and_compose` for a non-empty ranking. -/
def compose_response (n : Nat) (product_type : String) : String :=
  "I found " ++ toString n ++ " products matching your search for \x27" ++
    product_type ++ "\x27. Here are the top results:"

/-- Node 9, `rank_and_compose` (nodes.py): sorts the raw results descending
by `rank_score` with Python's stable sort (embedded as the stable
`List.insertionSort` under `scoreRel`), keeps the top 10, and composes the
response.  An empty result list produces the friendly no-match message. -/
def rank_and_compose (s : WorkflowState) : WorkflowState :=
  let products := s.raw_search_results
  if products.isEmpty then
    { s with ranked_results := [],
             final_response := some no_match_response,
             stage := .ranking,
             node_trace := s.node_trace ++ ["rank_and_compose"] }
  else
    let ranked := (products.insertionSort (scoreRel rank_score)).take 10
    let pt := match s.requirement_spec with
      | some spec => spec.product_type
      | none => "your query"
    { s with ranked_results := ranked,
             final_response := some (compose_response ranked.length pt),
             stage := .ranking,
             node_trace := s.node_trace ++ ["rank_and_compose"] }

/-- Modelled from the spec (for comparison only): the scoring formula as the
specification words it, with a missing price treated as infinity, so that
its `1/(1+price)` term is `0`. -/
def spec_score (p : ProductResult) : ℚ :=
  let price_term : ℚ := match p.price with
    | none => 0
    | some v => 1 / (1 + v)
  price_term * (4 / 10) + (p.rating.getD 0 / 5) * (6 / 10)

/-- Modelled from the spec (for comparison only): ranked output as the claim
states it, descending stable sort by `spec_score`, top 10. -/
def spec_ranked (ps : List ProductResult) : List ProductResult :=
  (ps.insertionSort (scoreRel spec_score)).take 10

/-! ### Node 1: `parse_input` (nodes.py lines 50-99)

The DynamoDB session load/create is the node's external call; constructing
`TurnInput` raises a `ValidationError` when the stripped message is empty
(`schemas.py`, `TurnInput.validate_message`), which the node's `except`
turns into `stage = FAILED`. -/

/-- Python's `str.strip()`: drop whitespace from both ends, written over the
character list so it is kernel-computable. -/
def pyStrip (s : String) : String :=
  String.mk
    (((s.toList.dropWhile Char.isWhitespace).reverse.dropWhile
        Char.isWhitespace).reverse)

def parse_input (db : Except PyErr Unit) (s : WorkflowState) : WorkflowState :=
  match db with
  | .error e => { s with error := some e.message, stage := .failed }
  | .ok _ =>
    let msg := pyStrip s.user_message
    if msg = "" then
      { s with error := some "Message cannot be empty", stage := .failed }
    else
      { s with stage := .initial,
               user_message := msg,
               node_trace := s.node_trace ++ ["parse_input"] }

/-! ### Node 2: `need_media_ops` (nodes.py lines 102-182) -/

/-- Parsed JSON decision expected from the Bedrock call in `need_media_ops`
(`result.get("need_stt", False)` / `result.get("need_vision", False)`). -/
structure MediaDecision where
  need_stt : Bool := false
  need_vision : Bool := false
  deriving DecidableEq, Repr

/-- Evaluation of the Python expression `b and has_audio` (resp. `has_image`)
where `has_audio` / `has_image` are names that are defined nowhere in
nodes.py: `False and has_audio` short-circuits to `False`; `True and
has_audio` evaluates the undefined name and raises `NameError`. -/
def andUndefined (b : Bool) : Except PyErr Bool :=
  if b then .error .nameError else .ok false

/-- Node 2, `need_media_ops`: mock path and no-media path set both flags
false and continue; otherwise the Bedrock outcome is parsed and the two
flag expressions are evaluated left to right; any exception (collaborator
failure, JSON failure, or the `NameError`) falls to the handler that sets
both flags false without appending to `node_trace`. -/
def need_media_ops (use_mock : Bool) (llm : Except PyErr MediaDecision)
    (s : WorkflowState) : WorkflowState :=
  if use_mock then
    { s with need_stt := false, need_vision := false,
             stage := .requirement_building,
             node_trace := s.node_trace ++ ["need_media_ops"] }
  else if s.media_refs.isEmpty then
    { s with need_stt := false, need_vision := false,
             stage := .requirement_building,
             node_trace := s.node_trace ++ ["need_media_ops"] }
  else
    match (do
      let r ← llm
      let a ← andUndefined r.need_stt
      let b ← andUndefined r.need_vision
      pure (a, b) : Except PyErr (Bool × Bool)) with
    | .ok (a, b) =>
      { s with need_stt := a, need_vision := b,
               stage := .media_processing,
               node_trace := s.node_trace ++ ["need_media_ops"] }
    | .error _ =>
      { s with need_stt := false, need_vision := false,
               stage := .requirement_building }

/-! ### Nodes 3 and 4: `transcribe_audio`, `extract_image_attrs`
(nodes.py lines 185-252) -/

/-- Node 3, `transcribe_audio`: without audio refs the state is returned
unchanged; on service success the transcript is stored and the trace
appended; on failure `audio_transcript = None` and no trace append. -/
def transcribe_audio (svc : Except PyErr String) (s : WorkflowState) :
    WorkflowState :=
  let audio_refs := s.media_refs.filter (fun r => r.category == "AUDIO")
  if audio_refs.isEmpty then s
  else
    match svc with
    | .ok t =>
      { s with audio_transcript := some t,
               node_trace := s.node_trace ++ ["transcribe_audio"] }
    | .error _ => { s with audio_transcript := none }

/-- Node 4, `extract_image_attrs`: same shape as `transcribe_audio` for image
refs and `image_attributes`. -/
def extract_image_attrs (svc : Except PyErr (List (String × String)))
    (s : WorkflowState) : WorkflowState :=
  let image_refs := s.media_refs.filter (fun r => r.category == "IMAGE")
  if image_refs.isEmpty then s
  else
    match svc with
    | .ok attrs =>
      { s with image_attributes := some attrs,
               node_trace := s.node_trace ++ ["extract_image_attrs"] }
    | .error _ => { s with image_attributes := none }

/-! ### Node 5: `build_or_update_requirement_spec` (nodes.py lines 255-332) -/

/-- Mock product type: `(user_message or "product").split(" ")[0][:40] or
"product"`. -/
def mock_inferred_type (msg : String) : String :=
  let base := if msg = "" then "product" else msg
  let w := ((base.splitOn " ").headD "").take 40
  if w = "" then "product" else w

/-- Mock requirement spec built on the `use_mock_services` path
(`attributes = ... mock: True ...`, `filters = ... price: max 1000 ...`,
nested dict values flattened to strings since no node reads them). -/
def mock_requirement_spec (msg : String) : RequirementSpec :=
  { product_type := mock_inferred_type msg,
    attributes := [("mock", "True")],
    filters := [("price", "max: 1000")],
    brand_preferences := [] }

/-- Node 5, `build_or_update_requirement_spec`: the spec comes from the mock
constructor or the Bedrock call, then is saved to DynamoDB; any exception in
either phase sets `stage = FAILED` with the error recorded. -/
def build_requirement (use_mock : Bool) (llm : Except PyErr RequirementSpec)
    (db : Except PyErr Unit) (s : WorkflowState) : WorkflowState :=
  let specE : Except PyErr RequirementSpec :=
    if use_mock then .ok (mock_requirement_spec s.user_message) else llm
  match (do
    let sp ← specE
    let _ ← db
    pure sp : Except PyErr RequirementSpec) with
  | .ok sp =>
    { s with requirement_spec := some sp,
             requirement_history := s.requirement_history ++ [sp],
             stage := .requirement_building,
             node_trace := s.node_trace ++ ["build_requirement"] }
  | .error e => { s with error := some e.message, stage := .failed }

/-! ### Node 6: `need_clarify` (nodes.py lines 335-459) -/

/-- Parsed JSON decision expected from the Bedrock call in `need_clarify`. -/
structure ClarifyDecision where
  needs_clarification : Bool := false
  reason : String := ""
  deriving DecidableEq, Repr

/-- The inner guardrail predicate `_has_meaningful_constraint` of
`need_clarify`: at least one of price bound, brand preference, rating
floor, condition, or a non-empty attribute map. -/
def has_meaningful_constraint (spec : RequirementSpec) : Bool :=
  let price_ok := match spec.price with
    | none => false
    | some p => p.max.isSome || p.min.isSome
  let brand_ok := decide (spec.brand_preferences.length > 0)
  let rating_ok := spec.rating_min.isSome
  let condition_ok := spec.condition.isSome
  let attrs_ok := decide (spec.attributes.length > 0)
  price_ok || brand_ok || rating_ok || condition_ok || attrs_ok

/-- `bool(product_type and str(product_type).strip())`. -/
def has_product_type (spec : RequirementSpec) : Bool :=
  decide (pyStrip spec.product_type ≠ "")

/-- The pieces named by the guardrail failure reason. -/
def missing_pieces (hpt hc : Bool) : List String :=
  (if hpt then [] else ["product type"]) ++
    (if hc then []
     else ["at least one constraint (budget, brand, or key feature)"])

/-- `"Missing " + " and ".join(missing)`. -/
def missing_reason (hpt hc : Bool) : String :=
  "Missing " ++ String.intercalate " and " (missing_pieces hpt hc)

/-- Node 6, `need_clarify`: mock path first, then the clarification-cap
check (`clarification_count >= 2` forces proceed-to-search), then the
missing-spec check, then the deterministic guardrail, and only then the
Bedrock call; a collaborator failure falls open to search without a trace
append. -/
def need_clarify (use_mock : Bool) (llm : Except PyErr ClarifyDecision)
    (s : WorkflowState) : WorkflowState :=
  if use_mock then
    { s with needs_clarification := false, clarification_reason := "",
             stage := .searching,
             node_trace := s.node_trace ++ ["need_clarify"] }
  else if s.clarification_count ≥ 2 then
    { s with needs_clarification := false, stage := .searching,
             node_trace := s.node_trace ++ ["need_clarify"] }
  else
    match s.requirement_spec with
    | none =>
      { s with needs_clarification := true,
               clarification_reason := "No requirement spec built",
               stage := .clarification,
               node_trace := s.node_trace ++ ["need_clarify"] }
    | some spec =>
      let hpt := has_product_type spec
      let hc := has_meaningful_constraint spec
      if !hpt || !hc then
        { s with needs_clarification := true,
                 clarification_reason := missing_reason hpt hc,
                 stage := .clarification,
                 node_trace := s.node_trace ++ ["need_clarify"] }
      else
        match llm with
        | .ok d =>
          { s with needs_clarification := d.needs_clarification,
                   clarification_reason := d.reason,
                   stage := if d.needs_clarification then .clarification
                            else .searching,
                   node_trace := s.node_trace ++ ["need_clarify"] }
        | .error _ =>
          { s with needs_clarification := false, stage := .searching }

/-! ### Node 7: `ask_clarifying_question` (nodes.py lines 462-543) -/

/-- Parsed outcome of the question-generating Bedrock call; the inner JSON
fallback of the node never raises, so non-JSON responses are already folded
into `question` here. -/
structure AskOutcome where
  question : String
  suggestions : List String := []
  context : Option String := none
  deriving DecidableEq, Repr

/-- Node 7, `ask_clarifying_question`: mock and success paths store the
question, increment `clarification_count` and set `stage = CLARIFICATION`
(the engine then pauses); a collaborator failure skips clarification:
`clarifying_question = None`, `stage = SEARCHING`, count untouched, no
trace append. -/
def ask_clarifying_question (use_mock : Bool) (llm : Except PyErr AskOutcome)
    (s : WorkflowState) : WorkflowState :=
  if use_mock then
    { s with
        clarifying_question := some "Could you share your preferred budget or brands?",
        clarification_count := s.clarification_count + 1,
        stage := .clarification,
        node_trace := s.node_trace ++ ["ask_clarifying_q"] }
  else
    match llm with
    | .ok o =>
      { s with clarifying_question := some o.question,
               clarifying_suggestions := o.suggestions,
               clarifying_context := o.context,
               clarification_count := s.clarification_count + 1,
               stage := .clarification,
               node_trace := s.node_trace ++ ["ask_clarifying_q"] }
    | .error _ =>
      { s with clarifying_question := none, stage := .searching }

/-! ### Node 8: `search_marketplaces` (nodes.py lines 546-580) -/

/-- Node 8, `search_marketplaces`: a missing requirement spec fails the
session; a catalog failure records the error and leaves an empty result
list (stage untouched, no trace append), and the unconditional edge then
carries the state on to ranking. -/
def search_marketplaces (svc : Except PyErr (List ProductResult))
    (s : WorkflowState) : WorkflowState :=
  match s.requirement_spec with
  | none =>
    { s with error := some "Cannot search without requirements",
             stage := .failed }
  | some _ =>
    match svc with
    | .ok results =>
      { s with raw_search_results := results, stage := .searching,
               node_trace := s.node_trace ++ ["search_marketplaces"] }
    | .error e =>
      { s with error := some e.message, raw_search_results := [] }

/-! ### Node 10: `done` (nodes.py lines 644-667) -/

/-- Node 10, `done`: unconditionally sets `stage = COMPLETED`, overwrites
`completed_at` with the current clock value (`datetime.utcnow()`), and
appends to the trace. -/
def done (now : ℚ) (s : WorkflowState) : WorkflowState :=
  { s with stage := .completed, completed_at := some now,
           node_trace := s.node_trace ++ ["done"] }

/-! ### Graph topology and engine (`app/graph/graph.py`) -/

/-- The ten registered node names of `build_buyer_flow_graph`. -/
inductive NodeName where
  | parse_input
  | need_media_ops
  | transcribe_audio
  | extract_image_attrs
  | build_requirement
  | need_clarify
  | ask_clarifying_q
  | search_marketplaces
  | rank_and_compose
  | done
  deriving DecidableEq, Repr

/-- The registered string name of each node, as appended to `node_trace`. -/
def nodeLabel : NodeName → String
  | .parse_input => "parse_input"
  | .need_media_ops => "need_media_ops"
  | .transcribe_audio => "transcribe_audio"
  | .extract_image_attrs => "extract_image_attrs"
  | .build_requirement => "build_requirement"
  | .need_clarify => "need_clarify"
  | .ask_clarifying_q => "ask_clarifying_q"
  | .search_marketplaces => "search_marketplaces"
  | .rank_and_compose => "rank_and_compose"
  | .done => "done"

/-- Conditional edge `should_process_audio` (graph.py lines 44-46). -/
def should_process_audio (s : WorkflowState) : Bool := s.need_stt

/-- Conditional edge `should_process_image` (graph.py lines 49-51). -/
def should_process_image (s : WorkflowState) : Bool := s.need_vision

/-- Conditional edge `should_clarify` (graph.py lines 54-56). -/
def should_clarify (s : WorkflowState) : Bool := s.needs_clarification

/-- The edge table of `build_buyer_flow_graph` (graph.py lines 84-138):
given the node that just produced state `s`, the next node, or `none` for
END (`ask_clarifying_q` pauses, `done` terminates). -/
def route (n : NodeName) (s : WorkflowState) : Option NodeName :=
  match n with
  | .parse_input => some .need_media_ops
  | .need_media_ops =>
      some (if should_process_audio s then .transcribe_audio
            else .build_requirement)
  | .transcribe_audio =>
      some (if should_process_image s then .extract_image_attrs
            else .build_requirement)
  | .extract_image_attrs => some .build_requirement
  | .build_requirement => some .need_clarify
  | .need_clarify =>
      some (if should_clarify s then .ask_clarifying_q
            else .search_marketplaces)
  | .ask_clarifying_q => none
  | .search_marketplaces => some .rank_and_compose
  | .rank_and_compose => some .done
  | .done => none

/-- One execution's collaborator outcomes: the configuration flag, the
external-call results each node would observe, and the clock. -/
structure Env where
  use_mock : Bool := false
  parse_db : Except PyErr Unit := .ok ()
  media_llm : Except PyErr MediaDecision := .error (.err "unavailable")
  transcribe_svc : Except PyErr String := .error (.err "unavailable")
  image_svc : Except PyErr (List (String × String)) := .error (.err "unavailable")
  build_llm : Except PyErr RequirementSpec := .error (.err "unavailable")
  build_db : Except PyErr Unit := .ok ()
  clarify_llm : Except PyErr ClarifyDecision := .error (.err "unavailable")
  ask_llm : Except PyErr AskOutcome := .error (.err "unavailable")
  search_svc : Except PyErr (List ProductResult) := .error (.err "unavailable")
  now : ℚ := 0
  deriving Repr

/-- Dispatch of one node execution under collaborator outcomes `e`. -/
def execNode (e : Env) : NodeName → WorkflowState → WorkflowState
  | .parse_input => parse_input e.parse_db
  | .need_media_ops => need_media_ops e.use_mock e.media_llm
  | .transcribe_audio => transcribe_audio e.transcribe_svc
  | .extract_image_attrs => extract_image_attrs e.image_svc
  | .build_requirement => build_requirement e.use_mock e.build_llm e.build_db
  | .need_clarify => need_clarify e.use_mock e.clarify_llm
  | .ask_clarifying_q => ask_clarifying_question e.use_mock e.ask_llm
  | .search_marketplaces => search_marketplaces e.search_svc
  | .rank_and_compose => rank_and_compose
  | .done => done e.now

/-- Fresh-session entry state: `invoke_buyer_flow` (graph.py) and
`stream_workflow_events` (handler.py) seed a new session with
`clarification_count = 0`. -/
def InitState (s : WorkflowState) : Prop := s.clarification_count = 0

/-- `Reachable n s` holds when node `n` is about to execute on state `s` in
some execution of the compiled buyer-flow graph, across any number of
turns: `entry` starts a fresh session at the entry point, `step` follows
the edge table with arbitrary collaborator outcomes, and `turn` starts the
next client turn at the entry point after a run reached END -- the handler
replaces the turn input but never writes `clarification_count`, so that
field carries over from the checkpoint. -/
inductive Reachable : NodeName → WorkflowState → Prop where
  | entry (s : WorkflowState) : InitState s → Reachable .parse_input s
  | step (n : NodeName) (s : WorkflowState) (e : Env) (n' : NodeName) :
      Reachable n s → route n (execNode e n s) = some n' →
      Reachable n' (execNode e n s)
  | turn (n : NodeName) (s : WorkflowState) (e : Env) (s' : WorkflowState) :
      Reachable n s → route n (execNode e n s) = none →
      s'.clarification_count = (execNode e n s).clarification_count →
      Reachable .parse_input s'

/-! ### Connection manager (`app/websocket/manager.py`) -/

/-- Per-connection metadata (`ConnectionMetadata.__init__`), timestamps as
rationals. -/
structure ConnMeta where
  user_id : String := ""
  connected_at : ℚ := 0
  last_heartbeat : ℚ := 0
  last_activity : ℚ := 0
  message_count : Nat := 0
  error_count : Nat := 0
  deriving DecidableEq, Repr

/-- Default `timeout_seconds` of `ConnectionMetadata.is_stale`. -/
def stale_timeout : ℚ := 300

/-- Default `ws_heartbeat_interval` (`app/core/config.py`, 30 seconds). -/
def ws_heartbeat_interval : ℚ := 30

/-- `ConnectionMetadata.is_stale(timeout_seconds)`: activity overdue by more
than `timeout_seconds`. -/
def is_stale (now : ℚ) (m : ConnMeta) (timeout_seconds : ℚ) : Bool :=
  decide (now - m.last_activity > timeout_seconds)

/-- `ConnectionMetadata.is_heartbeat_overdue`: heartbeat overdue by more
than `2 * ws_heartbeat_interval`. -/
def is_heartbeat_overdue (now interval : ℚ) (m : ConnMeta) : Bool :=
  decide (now - m.last_heartbeat > 2 * interval)

/-- The connection manager registries: `active_connections` (the session ids
holding a live websocket), `connection_metadata`, and the per-session
heartbeat task table `_heartbeat_tasks` (each task represented by its key). -/
structure ConnectionManager where
  active_connections : List String := []
  connection_metadata : List (String × ConnMeta) := []
  heartbeat_tasks : List String := []
  deriving DecidableEq, Repr

/-- `ConnectionManager.disconnect`: cancels and drops the heartbeat task,
removes the connection and its metadata; idempotent by construction. -/
def disconnect (mgr : ConnectionManager) (sid : String) : ConnectionManager :=
  { active_connections :=
      mgr.active_connections.filter (fun x => decide (x ≠ sid)),
    connection_metadata :=
      mgr.connection_metadata.filter (fun p => decide (p.1 ≠ sid)),
    heartbeat_tasks :=
      mgr.heartbeat_tasks.filter (fun x => decide (x ≠ sid)) }

/-- The eviction test of one `_cleanup_loop` iteration:
`metadata.is_stale() or metadata.is_heartbeat_overdue()`, with `is_stale`
called at its fixed default timeout of 300 seconds. -/
def sweep_test (now interval : ℚ) (m : ConnMeta) : Bool :=
  is_stale now m stale_timeout || is_heartbeat_overdue now interval m

/-- One iteration of `ConnectionManager._cleanup_loop`: collect the stale
session ids under the lock, then disconnect each. -/
def cleanup_pass (now interval : ℚ) (mgr : ConnectionManager) :
    ConnectionManager :=
  let stale_sessions :=
    (mgr.connection_metadata.filter (fun p => sweep_test now interval p.2)).map
      Prod.fst
  stale_sessions.foldl disconnect mgr

/-- Session `sid` holds no resources in `mgr`: absent from all three
registries. -/
def gone (mgr : ConnectionManager) (sid : String) : Prop :=
  sid ∉ mgr.active_connections
  ∧ (∀ m, (sid, m) ∉ mgr.connection_metadata)
  ∧ sid ∉ mgr.heartbeat_tasks

/-- Modelled from the spec (for comparison only): the claim's eviction
condition, heartbeat or activity overdue by more than twice the heartbeat
interval. -/
def spec_overdue (now interval : ℚ) (m : ConnMeta) : Bool :=
  decide (now - m.last_heartbeat > 2 * interval)
    || decide (now - m.last_activity > 2 * interval)

/-! ### Concrete inputs used by the counterexamples and witnesses -/

/-- Product with neither price nor rating. -/
def prodNoPrice : ProductResult := { product_id := "A" }

/-- Product with a price of 1000000 (more than the 999999 fallback) and no
rating. -/
def prodHugePrice : ProductResult :=
  { product_id := "B", price := some 1000000 }

/-- State whose raw results order differently under the code score and the
spec score. -/
def c1_state : WorkflowState :=
  { raw_search_results := [prodNoPrice, prodHugePrice] }

/-- Same raw results as `c1_state` on an otherwise different state. -/
def c1_state_rerun : WorkflowState :=
  { raw_search_results := [prodNoPrice, prodHugePrice],
    user_message := "again", stage := .searching }

/-- Fresh-session state: empty except identifiers. -/
def s_fresh : WorkflowState := { session_id := "sess", user_id := "u" }

/-- Requirement spec with a blank product type and no constraints. -/
def c3_spec : RequirementSpec := { product_type := "" }

/-- State at the clarification cap holding a still-incomplete requirement. -/
def c3_state : WorkflowState :=
  { requirement_spec := some c3_spec, clarification_count := 2 }

/-- State below the cap holding the same incomplete requirement. -/
def c3_state_fresh : WorkflowState :=
  { requirement_spec := some c3_spec, clarification_count := 0 }

/-- A complete requirement spec (product type plus a price bound). -/
def spec_laptop : RequirementSpec :=
  { product_type := "laptop", price := some { max := some 1000 } }

/-- State holding a complete requirement, about to search. -/
def s_laptop : WorkflowState :=
  { requirement_spec := some spec_laptop, stage := .searching }

/-- An already-completed session record. -/
def c6_state : WorkflowState :=
  { stage := .completed, completed_at := some 0, node_trace := ["done"] }

/-- State carrying one audio attachment. -/
def s_audio : WorkflowState :=
  { media_refs := [{ category := "AUDIO", s3_key := "k" }],
    node_trace := ["parse_input"] }

/-- Environment in which every collaborator call fails. -/
def env_fail : Env := { }

/-- Metadata whose activity is 100 seconds old but whose heartbeat is
current. -/
def c9_meta : ConnMeta := { last_heartbeat := 100, last_activity := 0 }

/-- Manager holding exactly the connection of `c9_meta`. -/
def c9_mgr : ConnectionManager :=
  { active_connections := ["s1"],
    connection_metadata := [("s1", c9_meta)],
    heartbeat_tasks := ["s1"] }

/-- Metadata whose heartbeat is 61 seconds overdue at time 100. -/
def c9_meta_dead : ConnMeta := { last_heartbeat := 39, last_activity := 100 }

/-- Manager holding a live connection and the overdue one. -/
def c9_mgr_two : ConnectionManager :=
  { active_connections := ["live", "dead"],
    connection_metadata :=
      [("live", { last_heartbeat := 100, last_activity := 100 }),
       ("dead", c9_meta_dead)],
    heartbeat_tasks := ["live", "dead"] }

/-! ## Theorems -/

/-! ### Stability of the embedded sort -/

/-- Inserting `x` does not disturb the order of the elements sharing any
score value: the score-`c` fibre of the result is the old fibre, with `x`
put in front exactly when `x` scores `c` (everything `orderedInsert` walks
past scores strictly above `f x`). -/
theorem filter_orderedInsert (f : α → ℚ) (c : ℚ) (x : α) (l : List α) :
    (l.orderedInsert (scoreRel f) x).filter (fun y => decide (f y = c))
      = if f x = c
        then x :: l.filter (fun y => decide (f y = c))
        else l.filter (fun y => decide (f y = c)) := by
  induction l with
  | nil => by_cases h : f x = c <;> simp [h]
  | cons b l ih =>
    rw [List.orderedInsert]
    by_cases hxb : scoreRel f x b
    · rw [if_pos hxb]
      by_cases h : f x = c <;> simp [h, List.filter_cons]
    · rw [if_neg hxb]
      by_cases h : f x = c
      · have hbx : ¬ f b ≤ f x := hxb
        have hbc : ¬ f b = c := fun hbc => hbx (le_of_eq (hbc.trans h.symm))
        simp [h, hbc, List.filter_cons, ih]
      · by_cases hb : f b = c <;> simp [h, hb, List.filter_cons, ih]

/-- The embedded stable sort preserves every score fibre of the input: ties
keep their original (provider) order. -/
theorem filter_insertionSort (f : α → ℚ) (c : ℚ) (l : List α) :
    (l.insertionSort (scoreRel f)).filter (fun y => decide (f y = c))
      = l.filter (fun y => decide (f y = c)) := by
  induction l with
  | nil => rfl
  | cons b l ih =>
    rw [List.insertionSort, filter_orderedInsert]
    by_cases h : f b = c <;> simp [h, List.filter_cons, ih]

/-- The ranked output of `rank_and_compose` is precisely the top 10 of the
stable descending sort of the raw results, in every state (including the
empty-results branch). -/
theorem rank_and_compose_ranked (s : WorkflowState) :
    (rank_and_compose s).ranked_results
      = (s.raw_search_results.insertionSort (scoreRel rank_score)).take 10 := by
  by_cases h : s.raw_search_results.isEmpty
  · have h0 : s.raw_search_results = [] := by
      cases h1 : s.raw_search_results
      · rfl
      · rw [h1] at h; simp [List.isEmpty] at h
    simp [rank_and_compose, h, h0]
  · simp [rank_and_compose, h]

/-- C1, counterexample: the code scores a missing price as `999999`, not as
infinity.  On a product with no price against a product priced `1000000`,
both unrated, `rank_and_compose` puts the price-less product first (its
term is `0.4/1000000`), while the claimed formula (missing price → ∞ →
term `0`) puts it last, so the claimed output differs from the code's. -/
theorem c1_missing_price_counterexample :
    (rank_and_compose c1_state).ranked_results = [prodNoPrice, prodHugePrice]
    ∧ spec_ranked c1_state.raw_search_results = [prodHugePrice, prodNoPrice]
    ∧ (rank_and_compose c1_state).ranked_results
        ≠ spec_ranked c1_state.raw_search_results := by
  have hcode : rank_score prodHugePrice ≤ rank_score prodNoPrice := by
    simp [rank_score, prodNoPrice, prodHugePrice]
    norm_num
  have hspec : ¬ spec_score prodHugePrice ≤ spec_score prodNoPrice := by
    simp [spec_score, prodNoPrice, prodHugePrice]
    norm_num
  have h1 : (rank_and_compose c1_state).ranked_results
      = [prodNoPrice, prodHugePrice] := by
    rw [rank_and_compose_ranked]
    simp [c1_state, scoreRel, hcode]
  have h2 : spec_ranked c1_state.raw_search_results
      = [prodHugePrice, prodNoPrice] := by
    simp [spec_ranked, c1_state, scoreRel, hspec]
  refine ⟨h1, h2, ?_⟩
  rw [h1, h2]
  decide

/-- C1 (amended): each product is scored
`0.4 * (1/(1+price)) + 0.6 * (rating/5)` with a missing price treated as
`999999` (not infinity) and a missing rating as `0`; `ranked_results` is
the input stably sorted descending by that score and truncated to the top
10 — the sort is a permutation, sorted under `scoreRel rank_score`, and
keeps every score fibre (ties) in original provider order — and re-running
on identical raw results yields the identical output list. -/
theorem c1_ranking_theorem (s : WorkflowState) :
    (rank_and_compose s).ranked_results
        = (s.raw_search_results.insertionSort (scoreRel rank_score)).take 10
    ∧ List.Sorted (scoreRel rank_score)
        (s.raw_search_results.insertionSort (scoreRel rank_score))
    ∧ (s.raw_search_results.insertionSort (scoreRel rank_score)).Perm
        s.raw_search_results
    ∧ (∀ c : ℚ,
        (s.raw_search_results.insertionSort (scoreRel rank_score)).filter
            (fun p => decide (rank_score p = c))
          = s.raw_search_results.filter (fun p => decide (rank_score p = c)))
    ∧ (rank_and_compose s).ranked_results.length ≤ 10
    ∧ (∀ t : WorkflowState, s.raw_search_results = t.raw_search_results →
        (rank_and_compose s).ranked_results
          = (rank_and_compose t).ranked_results) := by
  refine ⟨rank_and_compose_ranked s, List.sorted_insertionSort _ _,
    List.perm_insertionSort _ _, fun c => filter_insertionSort _ c _,
    ?_, fun t h => ?_⟩
  · rw [rank_and_compose_ranked s]
    exact List.length_take_le 10 _
  · rw [rank_and_compose_ranked s, rank_and_compose_ranked t, h]

/-- C1, witness: the determinism conjunct applied to two concrete states
sharing the same raw results. -/
theorem c1_ranking_witness :
    (rank_and_compose c1_state).ranked_results
      = (rank_and_compose c1_state_rerun).ranked_results :=
  (c1_ranking_theorem c1_state).2.2.2.2.2 c1_state_rerun rfl

/-! ### Clarification-count lemmas -/

/-- No node ever decreases `clarification_count`. -/
theorem clarification_count_mono (e : Env) (n : NodeName) (s : WorkflowState) :
    s.clarification_count ≤ (execNode e n s).clarification_count := by
  cases n <;>
    simp only [execNode, parse_input, need_media_ops, transcribe_audio,
      extract_image_attrs, build_requirement, need_clarify,
      ask_clarifying_question, search_marketplaces, rank_and_compose,
      done] <;>
    (repeat' split) <;> simp

/-- Every node other than `ask_clarifying_question` leaves
`clarification_count` unchanged. -/
theorem count_preserved (e : Env) (n : NodeName) (s : WorkflowState)
    (h : n ≠ .ask_clarifying_q) :
    (execNode e n s).clarification_count = s.clarification_count := by
  cases n <;> try exact absurd rfl h
  all_goals
    simp only [execNode, parse_input, need_media_ops, transcribe_audio,
      extract_image_attrs, build_requirement, need_clarify,
      search_marketplaces, rank_and_compose, done] <;>
    (repeat' split) <;> simp

/-- `ask_clarifying_question` increments `clarification_count` on its mock
and success paths and leaves it unchanged on its failure path. -/
theorem ask_count (use_mock : Bool) (llm : Except PyErr AskOutcome)
    (s : WorkflowState) :
    (ask_clarifying_question use_mock llm s).clarification_count
        = s.clarification_count
    ∨ (ask_clarifying_question use_mock llm s).clarification_count
        = s.clarification_count + 1 := by
  simp only [ask_clarifying_question]
  (repeat' split) <;> simp

/-- `need_clarify` requests clarification only below the cap. -/
theorem need_clarify_sets_true (use_mock : Bool)
    (llm : Except PyErr ClarifyDecision) (s : WorkflowState)
    (h : (need_clarify use_mock llm s).needs_clarification = true) :
    s.clarification_count ≤ 1 := by
  by_cases hm : use_mock
  · simp [need_clarify, hm] at h
  · by_cases hc : s.clarification_count ≥ 2
    · simp [need_clarify, hm, hc] at h
    · omega

/-- The only edge into `ask_clarifying_q` leaves `need_clarify` with
`needs_clarification` set. -/
theorem route_to_ask (n : NodeName) (s : WorkflowState)
    (h : route n s = some .ask_clarifying_q) :
    n = .need_clarify ∧ s.needs_clarification = true := by
  cases n with
  | need_clarify =>
    refine ⟨rfl, ?_⟩
    by_cases hb : s.needs_clarification <;>
      simp [route, should_clarify, hb] at h ⊢
  | need_media_ops =>
    simp only [route, Option.some.injEq] at h
    split at h <;> simp_all
  | transcribe_audio =>
    simp only [route, Option.some.injEq] at h
    split at h <;> simp_all
  | _ => simp [route] at h

/-- Cap invariant carried by every reachable configuration. -/
def CapInv (n : NodeName) (s : WorkflowState) : Prop :=
  s.clarification_count ≤ 2
  ∧ (n = .ask_clarifying_q → s.clarification_count ≤ 1)

/-- Every reachable configuration satisfies the cap invariant. -/
theorem reachable_capInv (n : NodeName) (s : WorkflowState)
    (h : Reachable n s) : CapInv n s := by
  induction h with
  | entry s hs =>
    refine ⟨?_, fun _ => ?_⟩ <;> simp [InitState] at hs <;> omega
  | step n s e n' _ hroute ih =>
    by_cases ha : n = .ask_clarifying_q
    · subst ha
      simp [route] at hroute
    · have hpres := count_preserved e n s ha
      refine ⟨by rw [hpres]; exact ih.1, fun hn' => ?_⟩
      subst hn'
      obtain ⟨hn, hclar⟩ := route_to_ask n (execNode e n s) hroute
      subst hn
      have hle : s.clarification_count ≤ 1 :=
        need_clarify_sets_true e.use_mock e.clarify_llm s
          (by simpa [execNode] using hclar)
      rw [hpres]
      exact hle
  | turn n s e s' _ hroute hcount ih =>
    refine ⟨?_, fun hn => nomatch hn⟩
    rw [hcount]
    by_cases ha : n = .ask_clarifying_q
    · subst ha
      have h1 : s.clarification_count ≤ 1 := ih.2 rfl
      rcases ask_count e.use_mock e.ask_llm s with h | h <;>
        simp only [execNode] <;> omega
    · rw [count_preserved e n s ha]
      exact ih.1

/-- C2: `clarification_count` is monotonically non-decreasing across node
executions and never exceeds the cap of 2 in any reachable configuration;
and every invocation of `need_clarify` on a state with
`clarification_count ≥ 2` sets `needs_clarification` to false and the
stage to SEARCHING, regardless of the requirement's contents. -/
theorem c2_clarification_cap :
    (∀ (e : Env) (n : NodeName) (s : WorkflowState),
        s.clarification_count ≤ (execNode e n s).clarification_count)
    ∧ (∀ (n : NodeName) (s : WorkflowState),
        Reachable n s → s.clarification_count ≤ 2)
    ∧ (∀ (use_mock : Bool) (llm : Except PyErr ClarifyDecision)
        (s : WorkflowState), 2 ≤ s.clarification_count →
        (need_clarify use_mock llm s).needs_clarification = false
        ∧ (need_clarify use_mock llm s).stage = .searching) := by
  refine ⟨clarification_count_mono, fun n s h => (reachable_capInv n s h).1,
    fun use_mock llm s h => ?_⟩
  by_cases hm : use_mock <;> simp [need_clarify, hm, h]

/-- C2, witness: the cap bound at a concrete freshly-entered state, and the
forced proceed-to-search on a concrete state at the cap with a
still-incomplete requirement. -/
theorem c2_clarification_cap_witness :
    s_fresh.clarification_count ≤ 2
    ∧ (need_clarify false (.error (.err "boom")) c3_state).needs_clarification
        = false :=
  ⟨c2_clarification_cap.2.1 .parse_input s_fresh
      (Reachable.entry s_fresh rfl),
   (c2_clarification_cap.2.2 false (.error (.err "boom")) c3_state
      (by decide)).1⟩

/-! ### The clarification guardrail (`need_clarify`) -/

/-- C3, counterexample: on a state at the clarification cap whose
requirement has a blank product type, `need_clarify` does not apply the
guardrail first: the cap check precedes it, so `needs_clarification`
comes out false and the stage is SEARCHING, where the claim demands
`needs_clarification = true` and stage CLARIFICATION whenever the product
type is missing. -/
theorem c3_guardrail_counterexample :
    has_product_type c3_spec = false
    ∧ (need_clarify false (.error (.err "unavailable")) c3_state).needs_clarification
        = false
    ∧ (need_clarify false (.error (.err "unavailable")) c3_state).stage
        = .searching := by
  refine ⟨by decide, ?_, ?_⟩ <;> simp [need_clarify, c3_state]

/-- C3 (amended): below the cap (`clarification_count < 2`) and off the
mock path, the deterministic guardrail is applied before the
language-model call: a missing requirement spec, a blank product type, or
the absence of every constraint in price bound / brand preference /
rating floor / condition / attribute, each force
`needs_clarification = true` with a reason naming the missing pieces
(`"No requirement spec built"` when the spec is absent) and stage
CLARIFICATION; and in those cases the outcome is independent of the
language-model collaborator, which is consulted only when the guardrail
passes. -/
theorem c3_guardrail_theorem (llm llm' : Except PyErr ClarifyDecision)
    (s : WorkflowState) (hcap : s.clarification_count < 2) :
    (s.requirement_spec = none →
      (need_clarify false llm s).needs_clarification = true
      ∧ (need_clarify false llm s).clarification_reason
          = "No requirement spec built"
      ∧ (need_clarify false llm s).stage = .clarification)
    ∧ (∀ spec, s.requirement_spec = some spec →
        (has_product_type spec = false
          ∨ has_meaningful_constraint spec = false) →
        (need_clarify false llm s).needs_clarification = true
        ∧ (need_clarify false llm s).clarification_reason
            = missing_reason (has_product_type spec)
                (has_meaningful_constraint spec)
        ∧ (need_clarify false llm s).stage = .clarification
        ∧ need_clarify false llm s = need_clarify false llm' s) := by
  have hc : ¬ s.clarification_count ≥ 2 := by omega
  constructor
  · intro hnone
    simp [need_clarify, hc, hnone]
  · intro spec hspec hfail
    rcases hfail with hf | hf <;>
      simp [need_clarify, hc, hspec, hf]

/-- C3, witness: the guardrail firing on a concrete fresh state whose
requirement lacks both a product type and any constraint. -/
theorem c3_guardrail_witness :
    (need_clarify false (.error (.err "unavailable")) c3_state_fresh).needs_clarification
        = true
    ∧ (need_clarify false (.error (.err "unavailable")) c3_state_fresh).stage
        = .clarification :=
  ⟨((c3_guardrail_theorem (.error (.err "unavailable")) (.ok {})
      c3_state_fresh (by decide)).2 c3_spec rfl (Or.inl (by decide))).1,
   ((c3_guardrail_theorem (.error (.err "unavailable")) (.ok {})
      c3_state_fresh (by decide)).2 c3_spec rfl (Or.inl (by decide))).2.2.1⟩

/-! ### Search error handling (`search_marketplaces`) -/

/-- C5: `search_marketplaces` with no requirement in the state sets the
stage to FAILED and records an error; when the catalog collaborator call
fails it sets `raw_search_results` to the empty list, records the error,
leaves the stage untouched, and the unconditional edge still carries the
state on to `rank_and_compose` rather than failing. -/
theorem c5_search_error_handling (svc : Except PyErr (List ProductResult))
    (s : WorkflowState) :
    (s.requirement_spec = none →
      (search_marketplaces svc s).stage = .failed
      ∧ (search_marketplaces svc s).error
          = some "Cannot search without requirements")
    ∧ (∀ er, s.requirement_spec ≠ none → svc = .error er →
        (search_marketplaces svc s).raw_search_results = []
        ∧ (search_marketplaces svc s).error = some er.message
        ∧ (search_marketplaces svc s).stage = s.stage
        ∧ route .search_marketplaces (search_marketplaces svc s)
            = some .rank_and_compose) := by
  constructor
  · intro h
    simp [search_marketplaces, h]
  · intro er hne hsvc
    cases hspec : s.requirement_spec with
    | none => exact absurd hspec hne
    | some spec =>
      subst hsvc
      simp [search_marketplaces, hspec, route]

/-- C5, witness: a concrete catalog failure on a state holding a complete
requirement. -/
theorem c5_search_witness :
    (search_marketplaces (.error (.err "catalog down")) s_laptop).raw_search_results
        = []
    ∧ route .search_marketplaces
        (search_marketplaces (.error (.err "catalog down")) s_laptop)
        = some .rank_and_compose :=
  ⟨((c5_search_error_handling (.error (.err "catalog down")) s_laptop).2
      (.err "catalog down") (by simp [s_laptop]) rfl).1,
   ((c5_search_error_handling (.error (.err "catalog down")) s_laptop).2
      (.err "catalog down") (by simp [s_laptop]) rfl).2.2.2⟩

/-! ### Re-running `done` (idempotence) -/

/-- C6, counterexample: re-invoking `done` on an already-COMPLETED session
record is not a no-op: with the clock at 1 it overwrites the recorded
`completed_at = 0` and appends another entry to `node_trace`. -/
theorem c6_done_counterexample :
    c6_state.stage = .completed
    ∧ done 1 c6_state ≠ c6_state
    ∧ (done 1 c6_state).completed_at ≠ c6_state.completed_at := by
  refine ⟨rfl, fun h => ?_, fun h => ?_⟩
  · have h2 := congrArg WorkflowState.node_trace h
    simp [done, c6_state] at h2
  · rw [show (done 1 c6_state).completed_at = some (1 : ℚ) from rfl,
      show c6_state.completed_at = some (0 : ℚ) from rfl] at h
    norm_num at h

/-- C6 (amended): re-invoking `done` on an already-COMPLETED record keeps
the stage at COMPLETED (it is idempotent in `stage`) but does mutate the
record: `completed_at` is overwritten with the current clock value and
another `"done"` is appended to `node_trace`. -/
theorem c6_done_theorem (now : ℚ) (s : WorkflowState)
    (h : s.stage = .completed) :
    (done now s).stage = s.stage
    ∧ (done now s).completed_at = some now
    ∧ (done now s).node_trace = s.node_trace ++ ["done"] := by
  simp [done, h]

/-- C6, witness: the amended behavior at a concrete completed record. -/
theorem c6_done_witness :
    (done 5 c6_state).stage = c6_state.stage
    ∧ (done 5 c6_state).completed_at = some 5 :=
  ⟨(c6_done_theorem 5 c6_state rfl).1, (c6_done_theorem 5 c6_state rfl).2.1⟩

/-! ### Media decision fail-open (`need_media_ops`) -/

/-- C7: with no media attached, `need_media_ops` sets both flags false with
an outcome independent of the language-model collaborator (it is never
consulted); and on a collaborator failure the step fails open, returning
with both flags false rather than raising. -/
theorem c7_media_fail_open (llm llm' : Except PyErr MediaDecision)
    (s : WorkflowState) :
    (s.media_refs = [] →
      (need_media_ops false llm s).need_stt = false
      ∧ (need_media_ops false llm s).need_vision = false
      ∧ need_media_ops false llm s = need_media_ops false llm' s)
    ∧ (∀ er, llm = .error er →
      (need_media_ops false llm s).need_stt = false
      ∧ (need_media_ops false llm s).need_vision = false) := by
  constructor
  · intro h
    simp [need_media_ops, h]
  · intro er he
    subst he
    by_cases hm : s.media_refs.isEmpty
    · simp [need_media_ops, hm]
    · simp only [need_media_ops, hm, Bool.false_eq_true, if_false, if_true,
        Bool.not_eq_true]
      exact ⟨rfl, rfl⟩

/-- C7, witness: a concrete collaborator failure on a no-media state. -/
theorem c7_media_witness :
    (need_media_ops false (.error (.err "llm down")) s_fresh).need_stt = false
    ∧ (need_media_ops false (.error (.err "llm down")) s_fresh).need_vision
        = false :=
  ⟨((c7_media_fail_open (.error (.err "llm down")) (.ok {}) s_fresh).1
      rfl).1,
   ((c7_media_fail_open (.error (.err "llm down")) (.ok {}) s_fresh).1
      rfl).2.1⟩

/-! ### The execution trace (`node_trace`) -/

/-- C8, counterexample: `need_media_ops` hitting its exception fallback (a
collaborator failure on a turn with media attached) executes but appends
nothing to `node_trace`, so an executing step does not always append its
name exactly once. -/
theorem c8_trace_counterexample :
    (execNode env_fail .need_media_ops s_audio).node_trace
        = s_audio.node_trace
    ∧ (execNode env_fail .need_media_ops s_audio).node_trace
        ≠ s_audio.node_trace ++ ["need_media_ops"] := by
  refine ⟨rfl, ?_⟩
  decide

/-- C8 (amended): `node_trace` is append-only (no node ever removes or
reorders entries) and each executing step appends its registered name at
most once: every node execution either leaves `node_trace` unchanged
(exception fallbacks and the no-matching-media-ref paths) or extends it
with exactly its own name. -/
theorem c8_trace_theorem (e : Env) (n : NodeName) (s : WorkflowState) :
    (execNode e n s).node_trace = s.node_trace
    ∨ (execNode e n s).node_trace = s.node_trace ++ [nodeLabel n] := by
  cases n <;>
    simp only [execNode, nodeLabel, parse_input, need_media_ops,
      transcribe_audio, extract_image_attrs, build_requirement,
      need_clarify, ask_clarifying_question, search_marketplaces,
      rank_and_compose, done] <;>
    (repeat' split) <;> simp

/-! ### Stale-connection sweep (`ConnectionManager`) -/

/-- Disconnecting a session removes it from all three registries. -/
theorem gone_disconnect_self (mgr : ConnectionManager) (sid : String) :
    gone (disconnect mgr sid) sid := by
  refine ⟨?_, fun m => ?_, ?_⟩ <;> simp [disconnect, List.mem_filter]

/-- Disconnecting any session never re-registers another. -/
theorem gone_disconnect_mono (mgr : ConnectionManager) (sid t : String)
    (h : gone mgr sid) : gone (disconnect mgr t) sid := by
  obtain ⟨h1, h2, h3⟩ := h
  refine ⟨fun hm => h1 (List.mem_of_mem_filter hm),
    fun m hm => h2 m (List.mem_of_mem_filter hm),
    fun hm => h3 (List.mem_of_mem_filter hm)⟩

/-- Absence survives a whole disconnect fold. -/
theorem gone_foldl_preserved (L : List String) (mgr : ConnectionManager)
    (sid : String) (h : gone mgr sid) :
    gone (L.foldl disconnect mgr) sid := by
  induction L generalizing mgr with
  | nil => exact h
  | cons a L ih => exact ih _ (gone_disconnect_mono _ sid a h)

/-- Folding `disconnect` over a list removes every listed session. -/
theorem gone_foldl_mem (L : List String) (mgr : ConnectionManager)
    (sid : String) (h : sid ∈ L) :
    gone (L.foldl disconnect mgr) sid := by
  induction L generalizing mgr with
  | nil => cases h
  | cons a L ih =>
    rcases List.mem_cons.mp h with rfl | h
    · exact gone_foldl_preserved L _ sid (gone_disconnect_self _ _)
    · exact ih _ h

/-- C9, counterexample: at time 100 under the default 30-second heartbeat
interval, the connection of `c9_meta` has its activity overdue by 100
seconds — more than 2x the interval, so the claim demands eviction — while
its heartbeat is current; but `is_stale` uses its fixed 300-second default
timeout, so the sweep test is false and one cleanup pass leaves every
registry entry of that connection in place. -/
theorem c9_sweep_counterexample :
    spec_overdue 100 ws_heartbeat_interval c9_meta = true
    ∧ sweep_test 100 ws_heartbeat_interval c9_meta = false
    ∧ cleanup_pass 100 ws_heartbeat_interval c9_mgr = c9_mgr := by
  have h1 : spec_overdue 100 ws_heartbeat_interval c9_meta = true := by
    simp [spec_overdue, ws_heartbeat_interval, c9_meta]
    norm_num
  have h2 : sweep_test 100 ws_heartbeat_interval c9_meta = false := by
    simp [sweep_test, is_stale, is_heartbeat_overdue, stale_timeout,
      ws_heartbeat_interval, c9_meta]
    norm_num
  refine ⟨h1, h2, ?_⟩
  simp [cleanup_pass, c9_mgr, h2]

/-- C9 (amended): a registered connection whose heartbeat is overdue by
more than 2x the heartbeat interval, or whose activity is overdue by more
than the fixed 300-second staleness timeout, is identified by a single
cleanup pass and forcibly disconnected: afterwards it is absent from
`active_connections`, from `connection_metadata`, and from the heartbeat
task table, so it holds no remaining resource. -/
theorem c9_sweep_theorem (now interval : ℚ) (mgr : ConnectionManager)
    (sid : String) (m : ConnMeta)
    (hmem : (sid, m) ∈ mgr.connection_metadata)
    (hstale : sweep_test now interval m = true) :
    gone (cleanup_pass now interval mgr) sid := by
  apply gone_foldl_mem
  exact List.mem_map.mpr ⟨(sid, m), List.mem_filter.mpr ⟨hmem, hstale⟩, rfl⟩

/-- C9, witness: the overdue connection of `c9_mgr_two` is fully evicted by
one concrete cleanup pass while registered alongside a live one. -/
theorem c9_sweep_witness :
    gone (cleanup_pass 100 ws_heartbeat_interval c9_mgr_two) "dead" :=
  c9_sweep_theorem 100 ws_heartbeat_interval c9_mgr_two "dead" c9_meta_dead
    (by simp [c9_mgr_two])
    (by simp [sweep_test, is_stale, is_heartbeat_overdue, stale_timeout,
          ws_heartbeat_interval, c9_meta_dead]
        norm_num)

/-! ### The undefined-name bug in `need_media_ops` -/

/-- C10, counterexample: when the collaborator response requests neither
media operation, Python's `and` short-circuits before reaching the
undefined `has_audio` / `has_image`, so the success branch completes
without raising: the trace is appended and the stage becomes
MEDIA_PROCESSING — the exception fallback would have done neither — while
both flags still come out false.  The claim's "always raises into the
fallback handler" is therefore wrong. -/
theorem c10_shortcircuit_counterexample :
    (need_media_ops false (.ok { }) s_audio).node_trace
        = s_audio.node_trace ++ ["need_media_ops"]
    ∧ (need_media_ops false (.ok { }) s_audio).stage = .media_processing
    ∧ (need_media_ops false (.ok { }) s_audio).need_stt = false
    ∧ (need_media_ops false (.ok { }) s_audio).need_vision = false :=
  ⟨rfl, rfl, rfl, rfl⟩

/-- C10 (amended): on every turn with media attached and mocks disabled,
`need_media_ops` returns with both flags false for every collaborator
outcome, so `transcribe_audio` and `extract_image_attrs` are never routed
to: whenever the parsed response requests either operation, the success
branch evaluates an undefined name and raises `NameError` into the
fallback (stage stays REQUIREMENT_BUILDING, no trace append); when it
requests neither, short-circuit evaluation skips the undefined names and
the branch completes normally, still with both flags false. -/
theorem c10_flags_always_false (llm : Except PyErr MediaDecision)
    (s : WorkflowState) (hm : s.media_refs ≠ []) :
    (need_media_ops false llm s).need_stt = false
    ∧ (need_media_ops false llm s).need_vision = false
    ∧ should_process_audio (need_media_ops false llm s) = false
    ∧ route .need_media_ops (need_media_ops false llm s)
        = some .build_requirement
    ∧ (∀ d, llm = .ok d → (d.need_stt = true ∨ d.need_vision = true) →
        (need_media_ops false llm s).stage = .requirement_building
        ∧ (need_media_ops false llm s).node_trace = s.node_trace) := by
  have hm' : s.media_refs.isEmpty = false := by
    cases hh : s.media_refs
    · exact absurd hh hm
    · rfl
  have main : (need_media_ops false llm s).need_stt = false
      ∧ (need_media_ops false llm s).need_vision = false := by
    cases llm with
    | error er =>
      simp only [need_media_ops, hm', Bool.false_eq_true, if_false]
      exact ⟨rfl, rfl⟩
    | ok d =>
      cases hstt : d.need_stt <;> cases hv : d.need_vision <;>
        simp only [need_media_ops, hm', Bool.false_eq_true, if_false] <;>
        simp [bind, Except.bind, pure, Except.pure, andUndefined, hstt, hv]
  refine ⟨main.1, main.2, ?_, ?_, ?_⟩
  · simp [should_process_audio, main.1]
  · simp [route, should_process_audio, main.1]
  · intro d hd hflag
    subst hd
    rcases hflag with hf | hf
    · simp only [need_media_ops, hm', Bool.false_eq_true, if_false]
      simp [bind, Except.bind, andUndefined, hf]
    · cases hstt : d.need_stt
      · simp only [need_media_ops, hm', Bool.false_eq_true, if_false]
        simp [bind, Except.bind, andUndefined, hstt, hf]
      · simp only [need_media_ops, hm', Bool.false_eq_true, if_false]
        simp [bind, Except.bind, andUndefined, hstt]

/-- C10, witness: flags forced false on a concrete audio turn whose
collaborator answer requests transcription. -/
theorem c10_flags_witness :
    (need_media_ops false (.ok { need_stt := true }) s_audio).need_stt
        = false
    ∧ (need_media_ops false (.ok { need_stt := true }) s_audio).stage
        = .requirement_building :=
  ⟨(c10_flags_always_false (.ok { need_stt := true }) s_audio
      (by decide)).1,
   ((c10_flags_always_false (.ok { need_stt := true }) s_audio
      (by decide)).2.2.2.2 { need_stt := true } rfl (Or.inl rfl)).1⟩

end TalknShop
